import Mathlib

/-!
Verification of the parity-bitcoin script interpreter (`script/src/interpreter.rs`).

A byte string is modelled as `List Nat` (each element a byte value), a script as the
raw byte string of its serialization, and the interpreter loop of `eval_script` as a
fuel-indexed step function over an explicit evaluation state.  Helper modules of the
repository that are not part of the provided source (the `Num` codec, the `Stack`
operations, the instruction reader, `Opcode` predicates, `Script::find_and_delete`,
`Sighash::is_defined`) are modelled from the specification; their doc comments say so
explicitly.  External collaborators (crypto hashes, ECDSA checking, `SignatureChecker`)
are abstracted as a record of functions, so theorems can quantify over them.
-/

namespace BitcoinScript

/-- Errors surfaced by `verify_script` / `eval_script` (the `Error` enum of the script
crate; `NumberOverflow` and `NumberNotMinimallyEncoded` are produced by the `Num`
decoder). -/
inductive Error where
  | ScriptSize
  | PushSize
  | BadOpcode
  | DisabledOpcode (op : Nat)
  | OpCount
  | StackSize
  | Minimaldata
  | SignaturePushOnly
  | Verify
  | EqualVerify
  | NumEqualVerify
  | CheckSigVerify
  | ReturnOpcode
  | EvalFalse
  | UnbalancedConditional
  | Cleanstack
  | InvalidStackOperation
  | InvalidAltstackOperation
  | SignatureDer
  | SignatureHighS
  | SignatureHashtype
  | SignatureNullDummy
  | PubkeyType
  | PubkeyCount
  | SigCount
  | NegativeLocktime
  | UnsatisfiedLocktime
  | DiscourageUpgradableNops
  | NumberOverflow
  | NumberNotMinimallyEncoded
deriving DecidableEq, Repr

/-- Signature version passed to `eval_script` (pre-segwit `Base` vs witness). -/
inductive SignatureVersion where
  | Base
  | WitnessV0
deriving DecidableEq, Repr

/-- The flag set of `VerificationFlags` (field names as in the source, including the
`verify_chechsequenceverify` typo). -/
structure VerificationFlags where
  verify_p2sh : Bool
  verify_dersig : Bool
  verify_low_s : Bool
  verify_strictenc : Bool
  verify_nulldummy : Bool
  verify_sigpushonly : Bool
  verify_minimaldata : Bool
  verify_discourage_upgradable_nops : Bool
  verify_cleanstack : Bool
  verify_clocktimeverify : Bool
  verify_chechsequenceverify : Bool
  verify_witness : Bool
deriving DecidableEq, Repr

/-- All-false flag set (`VerificationFlags::default()`). -/
def defaultFlags : VerificationFlags :=
  ⟨false, false, false, false, false, false, false, false, false, false, false, false⟩

/-- `MAX_SCRIPT_SIZE` of the script crate. -/
def MAX_SCRIPT_SIZE : Nat := 10000

/-- `MAX_SCRIPT_ELEMENT_SIZE` of the script crate. -/
def MAX_SCRIPT_ELEMENT_SIZE : Nat := 520

/-- `MAX_OPS_PER_SCRIPT` of the script crate. -/
def MAX_OPS_PER_SCRIPT : Nat := 201

/-- `MAX_PUBKEYS_PER_MULTISIG` of the script crate. -/
def MAX_PUBKEYS_PER_MULTISIG : Nat := 20

/-! ## The `Num` codec

Modelled from the spec (§4.1): the `Num` module is not part of the provided source.
Signed integers are carried little-endian with the sign bit in the MSB of the last
byte; zero is the empty string; decoding can enforce minimality; arithmetic happens
on the decoded integer and `to_bytes` re-encodes minimally. -/

/-- Little-endian base-256 digits of a natural number, fuel-indexed so that it
computes by kernel reduction (fuel `n` always suffices since the value shrinks by a
factor of 256 each step). -/
def natLeBytesF : Nat → Nat → List Nat
  | 0, _ => []
  | fuel + 1, n => if n = 0 then [] else n % 256 :: natLeBytesF fuel (n / 256)

/-- Little-endian base-256 digits of a natural number. -/
def natLeBytes (n : Nat) : List Nat := natLeBytesF n n

/-- Modelled from the spec: `Num::to_bytes` — minimal little-endian sign-magnitude
encoding; zero is the empty string; a final sign byte is appended when the top bit of
the last magnitude byte is set. -/
def numToBytes (v : Int) : List Nat :=
  if v = 0 then []
  else
    let m := natLeBytes v.natAbs
    if m.getLastD 0 &&& 0x80 ≠ 0 then
      m ++ [if v < 0 then 0x80 else 0]
    else if v < 0 then
      m.dropLast ++ [m.getLastD 0 + 0x80]
    else m

/-- Raw little-endian value of a byte string. -/
def rawLE (data : List Nat) : Nat :=
  data.foldr (fun b acc => b + 256 * acc) 0

/-- Modelled from the spec: the value denoted by a `Num` byte string — little-endian,
sign bit in the MSB of the last byte. -/
def decodeLE (data : List Nat) : Int :=
  if data = [] then 0
  else if data.getLastD 0 &&& 0x80 ≠ 0 then
    -(Int.ofNat (rawLE data - 128 * 256 ^ (data.length - 1)))
  else Int.ofNat (rawLE data)

/-- Modelled from the spec: `Num::from_slice(bytes, require_minimal, max_size)` —
fails if the input is longer than `max_size`, and, when minimality is required, if the
last byte has zero magnitude apart from the sign bit while the byte before it (if any)
has its high bit unset. -/
def numFromSlice (data : List Nat) (requireMinimal : Bool) (maxSize : Nat) :
    Except Error Int :=
  if data.length > maxSize then .error .NumberOverflow
  else if requireMinimal ∧ data ≠ [] ∧ data.getLastD 0 &&& 0x7f = 0 ∧
      (data.length ≤ 1 ∨ data.getD (data.length - 2) 0 &&& 0x80 = 0) then
    .error .NumberNotMinimallyEncoded
  else .ok (decodeLE data)

/-! ## Stack operations

Modelled from the spec (§4.2): the `Stack` module is not part of the provided source.
The stack is a `List` whose head is the top element; every operation that references a
nonexistent element fails with `InvalidStackOperation`. -/

/-- Modelled from the spec: `Stack::pop`. -/
def spop : List α → Except Error (α × List α)
  | [] => .error .InvalidStackOperation
  | a :: r => .ok (a, r)

/-- Modelled from the spec: `Stack::last` (peek at the top element). -/
def slast : List α → Except Error α
  | [] => .error .InvalidStackOperation
  | a :: _ => .ok a

/-- Modelled from the spec: `Stack::top(n)` (0 = top). -/
def stopN (s : List α) (n : Nat) : Except Error α :=
  match s[n]? with
  | some v => .ok v
  | none => .error .InvalidStackOperation

/-- Modelled from the spec: `Stack::remove(n)` — remove and return the element `n`
from the top. -/
def sremove (s : List α) (n : Nat) : Except Error (α × List α) :=
  match s[n]? with
  | some v => .ok (v, s.eraseIdx n)
  | none => .error .InvalidStackOperation

/-- Modelled from the spec: `Stack::drop(n)` — remove the topmost `n` elements. -/
def sdropN (s : List α) (n : Nat) : Except Error (List α) :=
  if n ≤ s.length then .ok (s.drop n) else .error .InvalidStackOperation

/-- Modelled from the spec: `Stack::dup(n)` — copy the topmost `n` elements
preserving order. -/
def sdup (s : List α) (n : Nat) : Except Error (List α) :=
  if n ≤ s.length then .ok (s.take n ++ s) else .error .InvalidStackOperation

/-- Modelled from the spec: `Stack::over(n)` — copy the second group of `n` elements
on top. -/
def sover (s : List α) (n : Nat) : Except Error (List α) :=
  if 2 * n ≤ s.length then .ok ((s.drop n).take n ++ s) else .error .InvalidStackOperation

/-- Modelled from the spec: `Stack::rot(n)` — rotate three groups of `n` elements
(`x1 x2 y1 y2 z1 z2 → y1 y2 z1 z2 x1 x2` for n = 2). -/
def srot (s : List α) (n : Nat) : Except Error (List α) :=
  if 3 * n ≤ s.length then
    .ok ((s.drop (2 * n)).take n ++ s.take n ++ (s.drop n).take n ++ s.drop (3 * n))
  else .error .InvalidStackOperation

/-- Modelled from the spec: `Stack::swap(n)` — swap the two topmost groups of `n`
elements. -/
def sswap (s : List α) (n : Nat) : Except Error (List α) :=
  if 2 * n ≤ s.length then
    .ok ((s.drop n).take n ++ s.take n ++ s.drop (2 * n))
  else .error .InvalidStackOperation

/-- Modelled from the spec: `Stack::nip` — remove the second-from-top element. -/
def snip : List α → Except Error (List α)
  | a :: _ :: r => .ok (a :: r)
  | _ => .error .InvalidStackOperation

/-- Modelled from the spec: `Stack::tuck` — copy the top element below the second. -/
def stuck : List α → Except Error (List α)
  | a :: b :: r => .ok (a :: b :: a :: r)
  | _ => .error .InvalidStackOperation

/-- Pop `n` elements off a stack, returning them in pop order (top first) together
with the remaining stack (the sequential `stack.pop()` calls of the multisig arm). -/
def popN : Nat → List α → Except Error (List α × List α)
  | 0, s => .ok ([], s)
  | n + 1, s => do
    let (a, r) ← spop s
    let (rest, r') ← popN n r
    .ok (a :: rest, r')

/-! ## Instruction reader

Modelled from the spec (§4.3): `Script::get_instruction(pc)` is not part of the
provided source.  It yields `(opcode, optional data, step)`; push opcodes 1..75 carry
their payload directly, `OP_PUSHDATA1/2/4` via little-endian length descriptors of
1, 2 or 4 bytes; a length descriptor exceeding the script gives `BadOpcode`, as does a byte that
is not a defined opcode (values above `OP_NOP10` = 0xb9). -/

/-- An instruction: opcode byte, optional push payload, and total bytes consumed. -/
structure Instruction where
  opcode : Nat
  data : Option (List Nat)
  step : Nat
deriving DecidableEq, Repr

/-- Modelled from the spec: `Script::get_instruction(pc)`. -/
def getInstruction (script : List Nat) (pc : Nat) : Except Error Instruction :=
  match script[pc]? with
  | none => .error .BadOpcode
  | some op =>
    if op ≤ 75 then
      if pc + 1 + op ≤ script.length then
        .ok ⟨op, some ((script.drop (pc + 1)).take op), 1 + op⟩
      else .error .BadOpcode
    else if op = 76 then
      match script[pc + 1]? with
      | none => .error .BadOpcode
      | some len =>
        if pc + 2 + len ≤ script.length then
          .ok ⟨op, some ((script.drop (pc + 2)).take len), 2 + len⟩
        else .error .BadOpcode
    else if op = 77 then
      match script[pc + 1]?, script[pc + 2]? with
      | some b0, some b1 =>
        if pc + 3 + (b0 + 256 * b1) ≤ script.length then
          .ok ⟨op, some ((script.drop (pc + 3)).take (b0 + 256 * b1)), 3 + (b0 + 256 * b1)⟩
        else .error .BadOpcode
      | _, _ => .error .BadOpcode
    else if op = 78 then
      match script[pc + 1]?, script[pc + 2]?, script[pc + 3]?, script[pc + 4]? with
      | some b0, some b1, some b2, some b3 =>
        if pc + 5 + (b0 + 256 * b1 + 65536 * b2 + 16777216 * b3) ≤ script.length then
          .ok ⟨op, some ((script.drop (pc + 5)).take (b0 + 256 * b1 + 65536 * b2 + 16777216 * b3)),
            5 + (b0 + 256 * b1 + 65536 * b2 + 16777216 * b3)⟩
        else .error .BadOpcode
      | _, _, _, _ => .error .BadOpcode
    else if op ≤ 185 then
      .ok ⟨op, none, 1⟩
    else .error .BadOpcode

/-- Modelled from the spec: `Opcode::is_countable` — everything with numeric value
above `OP_16` (= 96) counts toward the 201 non-push-opcode cap. -/
def isCountable (op : Nat) : Bool := 96 < op

/-- Modelled from the spec: `Opcode::is_disabled` — the always-disabled set
`OP_CAT, OP_SUBSTR, OP_LEFT, OP_RIGHT, OP_INVERT, OP_AND, OP_OR, OP_XOR, OP_2MUL,
OP_2DIV, OP_MUL, OP_DIV, OP_MOD, OP_LSHIFT, OP_RSHIFT, OP_VERIF, OP_VERNOTIF`. -/
def isDisabled (op : Nat) : Bool :=
  op = 101 || op = 102 || op = 126 || op = 127 || op = 128 || op = 129 ||
  op = 131 || op = 132 || op = 133 || op = 134 || op = 141 || op = 142 ||
  op = 149 || op = 150 || op = 151 || op = 152 || op = 153

/-! ## Encoding validators (from `interpreter.rs`) -/

/-- `cast_to_bool` of `interpreter.rs`: empty is false; otherwise false iff every byte
but the last is zero and the last is `0x00` or `0x80` (negative zero). -/
def castToBool (data : List Nat) : Bool :=
  if data = [] then false
  else if data.dropLast.any (fun x => x ≠ 0) then true
  else
    let last := data.getLastD 0
    if last = 0 ∨ last = 0x80 then false else true

/-- `check_minimal_push` of `interpreter.rs`: the push opcode must be the shortest
that could produce this payload. -/
def checkMinimalPush (data : List Nat) (opcode : Nat) : Bool :=
  if data = [] then
    opcode = 0
  else if data.length = 1 ∧ 1 ≤ data.getD 0 0 ∧ data.getD 0 0 ≤ 16 then
    opcode = 81 + (data.getD 0 0 - 1)
  else if data.length = 1 ∧ data.getD 0 0 = 0x81 then
    opcode = 79
  else if data.length ≤ 75 then
    opcode = data.length
  else if data.length ≤ 255 then
    opcode = 76
  else if data.length ≤ 65535 then
    opcode = 77
  else true

/-- `is_public_key` of `interpreter.rs`: 33 bytes starting with 2 or 3, or 65 bytes
starting with 4. -/
def isPublicKey (v : List Nat) : Bool :=
  if v.length = 33 ∧ (v.getD 0 0 = 2 ∨ v.getD 0 0 = 3) then true
  else if v.length = 65 ∧ v.getD 0 0 = 4 then true
  else false

/-- `is_valid_signature_encoding` of `interpreter.rs`.  Note the faithful rendering of
the source's `(!(sig[i] & 0x80)) != 0`: in Rust `!` on a `u8` is bitwise complement,
embedded here as xor with 0xFF. -/
def isValidSignatureEncoding (sig : List Nat) : Bool :=
  if sig.length < 9 ∨ sig.length > 73 then false
  else if sig.getD 0 0 ≠ 0x30 then false
  else if sig.getD 1 0 ≠ sig.length - 3 then false
  else
    let lenR := sig.getD 3 0
    if sig.length ≤ lenR + 5 then false
    else
      let lenS := sig.getD (lenR + 5) 0
      if lenR + lenS + 7 ≠ sig.length then false
      else if sig.getD 2 0 ≠ 2 then false
      else if lenR = 0 then false
      else if sig.getD 4 0 &&& 0x80 ≠ 0 then false
      else if lenR > 1 ∧ sig.getD 4 0 = 0 ∧ (sig.getD 5 0 &&& 0x80) ^^^ 0xFF ≠ 0 then false
      else if sig.getD (lenR + 4) 0 ≠ 2 then false
      else if lenS = 0 then false
      else if sig.getD (lenR + 6) 0 &&& 0x80 ≠ 0 then false
      else if lenS > 1 ∧ sig.getD (lenR + 6) 0 = 0 ∧
          (sig.getD (lenR + 7) 0 &&& 0x80) ^^^ 0xFF ≠ 0 then false
      else true

/-- Modelled from the spec: `Sighash::is_defined` — the sighash byte, with the
`ANYONECANPAY` bit (0x80) masked off, must name `ALL` (1), `NONE` (2) or `SINGLE`
(3). -/
def sighashIsDefined (t : Nat) : Bool :=
  let base := t &&& 0x7f
  1 ≤ base ∧ base ≤ 3

/-- `is_defined_hashtype_signature` of `interpreter.rs`. -/
def isDefinedHashtypeSignature (sig : List Nat) : Bool :=
  if sig = [] then false
  else sighashIsDefined (sig.getLastD 0)

/-- External collaborators of the interpreter: the `SignatureChecker` capability, the
`Public::from_slice` parser, `Signature::check_low_s`, and the hash primitives, all
consumed as pure functions. -/
structure Externals where
  checkSig : List Nat → List Nat → List Nat → Nat → SignatureVersion → Bool
  checkLockTime : Int → Bool
  checkSequence : Int → Bool
  publicFromSlice : List Nat → Option (List Nat)
  checkLowS : List Nat → Bool
  ripemd160 : List Nat → List Nat
  sha1 : List Nat → List Nat
  sha256 : List Nat → List Nat
  dhash160 : List Nat → List Nat
  dhash256 : List Nat → List Nat

/-- `is_low_der_signature` of `interpreter.rs`. -/
def isLowDerSignature (ext : Externals) (sig : List Nat) : Except Error Unit :=
  if ¬isValidSignatureEncoding sig then .error .SignatureDer
  else if ¬ext.checkLowS sig then .error .SignatureHighS
  else .ok ()

/-- `check_signature_encoding` of `interpreter.rs`: empty signatures pass; otherwise
the DER, low-S and defined-hashtype checks apply, gated on the flags. -/
def checkSignatureEncoding (ext : Externals) (sig : List Nat)
    (flags : VerificationFlags) : Except Error Unit :=
  if sig = [] then .ok ()
  else if (flags.verify_dersig || flags.verify_low_s || flags.verify_strictenc) ∧
      ¬isValidSignatureEncoding sig then
    .error .SignatureDer
  else do
    if flags.verify_low_s then isLowDerSignature ext sig else pure ()
    if flags.verify_strictenc ∧ ¬isDefinedHashtypeSignature sig then
      .error .SignatureHashtype
    else .ok ()

/-- `check_pubkey_encoding` of `interpreter.rs`. -/
def checkPubkeyEncoding (v : List Nat) (flags : VerificationFlags) :
    Except Error Unit :=
  if flags.verify_strictenc ∧ ¬isPublicKey v then .error .PubkeyType else .ok ()

/-- The `check_signature` helper of `interpreter.rs`: parse the public key, reject an
empty signature, split the trailing sighash byte off the signature, and delegate to
the `SignatureChecker`. -/
def checkSignatureHelper (ext : Externals) (scriptSig publicBytes scriptCode : List Nat)
    (version : SignatureVersion) : Bool :=
  match ext.publicFromSlice publicBytes with
  | none => false
  | some pk =>
    if scriptSig = [] then false
    else ext.checkSig scriptSig.dropLast pk scriptCode (scriptSig.getLastD 0) version

/-! ## `find_and_delete` -/

/-- Does `pat` match the start of `l`? -/
def leadsWith : List Nat → List Nat → Bool
  | [], _ => true
  | _ :: _, [] => false
  | p :: ps, b :: bs => p = b && leadsWith ps bs

/-- Remove every occurrence of the nonempty pattern from the byte string, scanning
left to right; fuel-indexed so that it computes by kernel reduction (fuel `l.length`
always suffices since each step consumes at least one byte). -/
def removeOccAux (pat : List Nat) : Nat → List Nat → List Nat
  | 0, l => l
  | _ + 1, [] => []
  | fuel + 1, b :: rest =>
    if 1 ≤ pat.length ∧ leadsWith pat (b :: rest) then
      removeOccAux pat fuel ((b :: rest).drop pat.length)
    else b :: removeOccAux pat fuel rest

/-- Remove every occurrence of a byte pattern from a byte string. -/
def removeOccurrences (l pat : List Nat) : List Nat :=
  removeOccAux pat l.length l

/-- Serialized push instruction for a payload (shortest direct-push form). -/
def pushSerialization (data : List Nat) : List Nat :=
  if data.length ≤ 75 then data.length :: data
  else if data.length ≤ 255 then 76 :: data.length :: data
  else if data.length ≤ 65535 then 77 :: data.length % 256 :: data.length / 256 :: data
  else 78 :: data.length % 256 :: data.length / 256 % 256 :: data.length / 65536 % 256 ::
    data.length / 16777216 % 256 :: data

/-- Modelled from the spec: `Script::find_and_delete(sig)` returns a new script with
every occurrence of the exact push of `sig` removed. -/
def findAndDelete (s sig : List Nat) : List Nat :=
  removeOccurrences s (pushSerialization sig)

/-! ## The interpreter loop (`eval_script` of `interpreter.rs`) -/

/-- The mutable state of one `eval_script` invocation: main stack, alt-stack,
conditional stack (head = innermost), opcode counter, and `begincode`. -/
structure EvalState where
  stack : List (List Nat)
  altstack : List (List Nat)
  execStack : List Bool
  opCount : Nat
  begincode : Nat
deriving DecidableEq, Repr

/-- Result of dispatching one instruction: an updated state, or a `halt` that leaves
the interpreter loop (the source's `break` on `OP_NOP`). -/
inductive DispatchOut where
  | state (st : EvalState)
  | halt (st : EvalState)
deriving DecidableEq, Repr

/-- Result of one full loop iteration: continue at a new program counter, or leave
the loop. -/
inductive StepRes where
  | cont (pc : Nat) (st : EvalState)
  | done (st : EvalState)
deriving DecidableEq, Repr

/-- The index-marching loop of the `OP_CHECKMULTISIG` arm: walk `k` over the keys and
`s` over the signatures, advancing `s` only on a successful check, failing as soon as
the signatures left outnumber the keys left.  Fuel-indexed; called with fuel
`keys.length + 1`, which exceeds the iteration count since `k` grows by one per
iteration and the loop exits once the keys are exhausted. -/
def multisigLoop (ext : Externals) (flags : VerificationFlags)
    (keys sigs : List (List Nat)) (subscript : List Nat) (version : SignatureVersion) :
    Nat → Nat → Nat → Bool → Except Error Bool
  | 0, _, _, success => .ok success
  | fuel + 1, k, s, success =>
    if s < sigs.length ∧ success = true then do
      let key := keys.getD k []
      let sig := sigs.getD s []
      checkSignatureEncoding ext sig flags
      checkPubkeyEncoding key flags
      let ok := checkSignatureHelper ext sig key subscript version
      let s' := if ok then s + 1 else s
      let k' := k + 1
      multisigLoop ext flags keys sigs subscript version fuel k' s'
        (decide (sigs.length - s' ≤ keys.length - k'))
    else .ok success

/-- The opcode-count bump and the always-disabled trap of the per-instruction
preamble (`interpreter.rs` lines 325-334). -/
def preChecksCount (instr : Instruction) (st : EvalState) : Except Error EvalState :=
  if isCountable instr.opcode then
    if st.opCount + 1 > MAX_OPS_PER_SCRIPT then .error .OpCount
    else if isDisabled instr.opcode then .error (.DisabledOpcode instr.opcode)
    else .ok { st with opCount := st.opCount + 1 }
  else
    if isDisabled instr.opcode then .error (.DisabledOpcode instr.opcode)
    else .ok st

/-- The per-instruction checks that run before the conditional-skip test: push size
and minimal-push enforcement when the instruction carries data, then the opcode
count and the always-disabled trap (`interpreter.rs` lines 315-334). -/
def preChecks (flags : VerificationFlags) (instr : Instruction) (executing : Bool)
    (st : EvalState) : Except Error EvalState :=
  match instr.data with
  | some d =>
    if d.length > MAX_SCRIPT_ELEMENT_SIZE then .error .PushSize
    else if executing ∧ flags.verify_minimaldata = true ∧
        checkMinimalPush d instr.opcode = false then
      .error .Minimaldata
    else preChecksCount instr st
  | none => preChecksCount instr st

/-- The big opcode dispatch of `eval_script` (the `match opcode` of
`interpreter.rs` lines 341-870), one branch per source match arm, keyed on the
opcode's byte value (`OP_NOP` = 97, `OP_IF` = 99, ..., `OP_NOP10` = 185). -/
def dispatch (ext : Externals) (flags : VerificationFlags) (script : List Nat)
    (version : SignatureVersion) (pc : Nat) (instr : Instruction) (executing : Bool)
    (st : EvalState) : Except Error DispatchOut :=
  let op := instr.opcode
  if op ≤ 78 then
    -- push family: OP_0, OP_PUSHBYTES_1..75, OP_PUSHDATA1/2/4
    match instr.data with
    | some d => .ok (.state { st with stack := d :: st.stack })
    | none => .ok (.state st)
  else if op = 79 ∨ (81 ≤ op ∧ op ≤ 96) then
    -- OP_1NEGATE, OP_1..OP_16: value computed by u8 subtraction `opcode - (OP_1 - 1)`
    -- (which wraps for OP_1NEGATE, faithfully rendered mod 256)
    let value := (op + 256 - 80) % 256
    .ok (.state { st with stack := numToBytes (Int.ofNat value) :: st.stack })
  else if op = 126 ∨ op = 127 ∨ op = 128 ∨ op = 129 ∨ op = 131 ∨ op = 132 ∨
      op = 133 ∨ op = 134 ∨ op = 141 ∨ op = 142 ∨ op = 149 ∨ op = 150 ∨
      op = 151 ∨ op = 152 ∨ op = 153 then
    -- OP_CAT..OP_RSHIFT arm
    .error (.DisabledOpcode op)
  else if op = 97 then
    -- OP_NOP: the source performs an early loop exit (`break`)
    .ok (.halt st)
  else if op = 177 then
    -- OP_CHECKLOCKTIMEVERIFY: note that the source falls through to the locktime
    -- body even when `verify_clocktimeverify` is off
    if flags.verify_clocktimeverify = false ∧
        flags.verify_discourage_upgradable_nops = true then
      .error .DiscourageUpgradableNops
    else do
      let top ← slast st.stack
      let lockTime ← numFromSlice top flags.verify_minimaldata 5
      if lockTime < 0 then .error .NegativeLocktime
      else if ext.checkLockTime lockTime = false then .error .UnsatisfiedLocktime
      else .ok (.state st)
  else if op = 178 then
    -- OP_CHECKSEQUENCEVERIFY (same fall-through shape as CLTV)
    if flags.verify_chechsequenceverify = false ∧
        flags.verify_discourage_upgradable_nops = true then
      .error .DiscourageUpgradableNops
    else do
      let top ← slast st.stack
      let sequence ← numFromSlice top flags.verify_minimaldata 5
      if sequence < 0 then .error .NegativeLocktime
      else if sequence.toNat &&& 0x80000000 = 0 then
        if ext.checkSequence sequence = false then .error .UnsatisfiedLocktime
        else .ok (.state st)
      else .ok (.state st)
  else if op = 176 ∨ (179 ≤ op ∧ op ≤ 185) then
    -- OP_NOP1, OP_NOP4..OP_NOP10
    if flags.verify_discourage_upgradable_nops then .error .DiscourageUpgradableNops
    else .ok (.state st)
  else if op = 99 ∨ op = 100 then
    -- OP_IF / OP_NOTIF
    if executing then
      match spop st.stack with
      | .error _ => .error .UnbalancedConditional
      | .ok (v, rest) =>
        let ev := castToBool v
        let ev := if op = 100 then !ev else ev
        .ok (.state { st with stack := rest, execStack := ev :: st.execStack })
    else
      .ok (.state { st with execStack := false :: st.execStack })
  else if op = 103 then
    -- OP_ELSE: the source compares `exec_stack[last] == !last` instead of assigning,
    -- so the conditional stack is left unchanged
    if st.execStack = [] then .error .UnbalancedConditional
    else .ok (.state st)
  else if op = 104 then
    -- OP_ENDIF
    if st.execStack = [] then .error .UnbalancedConditional
    else .ok (.state { st with execStack := st.execStack.tail })
  else if op = 105 then
    -- OP_VERIFY
    do
      let (v, rest) ← spop st.stack
      if castToBool v = false then .error .Verify
      else .ok (.state { st with stack := rest })
  else if op = 106 then
    -- OP_RETURN
    .error .ReturnOpcode
  else if op = 107 then
    -- OP_TOALTSTACK
    do
      let (v, rest) ← spop st.stack
      .ok (.state { st with stack := rest, altstack := v :: st.altstack })
  else if op = 108 then
    -- OP_FROMALTSTACK
    match spop st.altstack with
    | .error _ => .error .InvalidAltstackOperation
    | .ok (v, rest) => .ok (.state { st with stack := v :: st.stack, altstack := rest })
  else if op = 109 then do
    let s ← sdropN st.stack 2
    .ok (.state { st with stack := s })
  else if op = 110 then do
    let s ← sdup st.stack 2
    .ok (.state { st with stack := s })
  else if op = 111 then do
    let s ← sdup st.stack 3
    .ok (.state { st with stack := s })
  else if op = 112 then do
    let s ← sover st.stack 2
    .ok (.state { st with stack := s })
  else if op = 113 then do
    let s ← srot st.stack 2
    .ok (.state { st with stack := s })
  else if op = 114 then do
    let s ← sswap st.stack 2
    .ok (.state { st with stack := s })
  else if op = 115 then do
    -- OP_IFDUP
    let v ← slast st.stack
    if castToBool v then do
      let s ← sdup st.stack 1
      .ok (.state { st with stack := s })
    else .ok (.state st)
  else if op = 116 then
    -- OP_DEPTH
    .ok (.state { st with stack := numToBytes (Int.ofNat st.stack.length) :: st.stack })
  else if op = 117 then do
    let (_, rest) ← spop st.stack
    .ok (.state { st with stack := rest })
  else if op = 118 then do
    let s ← sdup st.stack 1
    .ok (.state { st with stack := s })
  else if op = 119 then do
    let s ← snip st.stack
    .ok (.state { st with stack := s })
  else if op = 120 then do
    let s ← sover st.stack 1
    .ok (.state { st with stack := s })
  else if op = 121 ∨ op = 122 then do
    -- OP_PICK / OP_ROLL
    let (nb, s1) ← spop st.stack
    let n ← numFromSlice nb flags.verify_minimaldata 4
    if n < 0 ∨ (s1.length : Int) ≤ n then .error .InvalidStackOperation
    else if op = 121 then do
      let v ← stopN s1 n.toNat
      .ok (.state { st with stack := v :: s1 })
    else do
      let (v, s2) ← sremove s1 n.toNat
      .ok (.state { st with stack := v :: s2 })
  else if op = 123 then do
    let s ← srot st.stack 1
    .ok (.state { st with stack := s })
  else if op = 124 then do
    let s ← sswap st.stack 1
    .ok (.state { st with stack := s })
  else if op = 125 then do
    let s ← stuck st.stack
    .ok (.state { st with stack := s })
  else if op = 130 then do
    -- OP_SIZE
    let v ← slast st.stack
    .ok (.state { st with stack := numToBytes (Int.ofNat v.length) :: st.stack })
  else if op = 135 then do
    -- OP_EQUAL
    let (v1, s1) ← spop st.stack
    let (v2, s2) ← spop s1
    .ok (.state { st with stack := (if v1 = v2 then [1] else [0]) :: s2 })
  else if op = 136 then do
    -- OP_EQUALVERIFY
    let (v1, s1) ← spop st.stack
    let (v2, s2) ← spop s1
    if v1 = v2 then .ok (.state { st with stack := s2 })
    else .error .EqualVerify
  else if op = 139 then do
    let (vb, s1) ← spop st.stack
    let n ← numFromSlice vb flags.verify_minimaldata 4
    .ok (.state { st with stack := numToBytes (n + 1) :: s1 })
  else if op = 140 then do
    let (vb, s1) ← spop st.stack
    let n ← numFromSlice vb flags.verify_minimaldata 4
    .ok (.state { st with stack := numToBytes (n - 1) :: s1 })
  else if op = 143 then do
    let (vb, s1) ← spop st.stack
    let n ← numFromSlice vb flags.verify_minimaldata 4
    .ok (.state { st with stack := numToBytes (-n) :: s1 })
  else if op = 144 then do
    let (vb, s1) ← spop st.stack
    let n ← numFromSlice vb flags.verify_minimaldata 4
    .ok (.state { st with stack := numToBytes |n| :: s1 })
  else if op = 145 then do
    -- OP_NOT
    let (vb, s1) ← spop st.stack
    let n ← numFromSlice vb flags.verify_minimaldata 4
    .ok (.state { st with stack := numToBytes (if n = 0 then 1 else 0) :: s1 })
  else if op = 146 then do
    -- OP_0NOTEQUAL
    let (vb, s1) ← spop st.stack
    let n ← numFromSlice vb flags.verify_minimaldata 4
    .ok (.state { st with stack := numToBytes (if n = 0 then 0 else 1) :: s1 })
  else if op = 147 then do
    let (v1b, s1) ← spop st.stack
    let v1 ← numFromSlice v1b flags.verify_minimaldata 4
    let (v2b, s2) ← spop s1
    let v2 ← numFromSlice v2b flags.verify_minimaldata 4
    .ok (.state { st with stack := numToBytes (v1 + v2) :: s2 })
  else if op = 148 then do
    -- OP_SUB pushes v2 - v1
    let (v1b, s1) ← spop st.stack
    let v1 ← numFromSlice v1b flags.verify_minimaldata 4
    let (v2b, s2) ← spop s1
    let v2 ← numFromSlice v2b flags.verify_minimaldata 4
    .ok (.state { st with stack := numToBytes (v2 - v1) :: s2 })
  else if op = 154 then do
    let (v1b, s1) ← spop st.stack
    let v1 ← numFromSlice v1b flags.verify_minimaldata 4
    let (v2b, s2) ← spop s1
    let v2 ← numFromSlice v2b flags.verify_minimaldata 4
    let r := numToBytes (if v1 ≠ 0 ∧ v2 ≠ 0 then 1 else 0)
    .ok (.state { st with stack := r :: s2 })
  else if op = 155 then do
    let (v1b, s1) ← spop st.stack
    let v1 ← numFromSlice v1b flags.verify_minimaldata 4
    let (v2b, s2) ← spop s1
    let v2 ← numFromSlice v2b flags.verify_minimaldata 4
    let r := numToBytes (if v1 ≠ 0 ∨ v2 ≠ 0 then 1 else 0)
    .ok (.state { st with stack := r :: s2 })
  else if op = 156 then do
    let (v1b, s1) ← spop st.stack
    let v1 ← numFromSlice v1b flags.verify_minimaldata 4
    let (v2b, s2) ← spop s1
    let v2 ← numFromSlice v2b flags.verify_minimaldata 4
    .ok (.state { st with stack := numToBytes (if v1 = v2 then 1 else 0) :: s2 })
  else if op = 157 then do
    -- OP_NUMEQUALVERIFY
    let (v1b, s1) ← spop st.stack
    let v1 ← numFromSlice v1b flags.verify_minimaldata 4
    let (v2b, s2) ← spop s1
    let v2 ← numFromSlice v2b flags.verify_minimaldata 4
    if v1 ≠ v2 then .error .NumEqualVerify
    else .ok (.state { st with stack := s2 })
  else if op = 158 then do
    let (v1b, s1) ← spop st.stack
    let v1 ← numFromSlice v1b flags.verify_minimaldata 4
    let (v2b, s2) ← spop s1
    let v2 ← numFromSlice v2b flags.verify_minimaldata 4
    .ok (.state { st with stack := numToBytes (if v1 ≠ v2 then 1 else 0) :: s2 })
  else if op = 159 then do
    -- OP_LESSTHAN pushes `v1 > v2` (v1 = first pop = top)
    let (v1b, s1) ← spop st.stack
    let v1 ← numFromSlice v1b flags.verify_minimaldata 4
    let (v2b, s2) ← spop s1
    let v2 ← numFromSlice v2b flags.verify_minimaldata 4
    .ok (.state { st with stack := numToBytes (if v1 > v2 then 1 else 0) :: s2 })
  else if op = 160 then do
    -- OP_GREATERTHAN pushes `v1 < v2`
    let (v1b, s1) ← spop st.stack
    let v1 ← numFromSlice v1b flags.verify_minimaldata 4
    let (v2b, s2) ← spop s1
    let v2 ← numFromSlice v2b flags.verify_minimaldata 4
    .ok (.state { st with stack := numToBytes (if v1 < v2 then 1 else 0) :: s2 })
  else if op = 161 then do
    let (v1b, s1) ← spop st.stack
    let v1 ← numFromSlice v1b flags.verify_minimaldata 4
    let (v2b, s2) ← spop s1
    let v2 ← numFromSlice v2b flags.verify_minimaldata 4
    .ok (.state { st with stack := numToBytes (if v1 ≥ v2 then 1 else 0) :: s2 })
  else if op = 162 then do
    let (v1b, s1) ← spop st.stack
    let v1 ← numFromSlice v1b flags.verify_minimaldata 4
    let (v2b, s2) ← spop s1
    let v2 ← numFromSlice v2b flags.verify_minimaldata 4
    .ok (.state { st with stack := numToBytes (if v1 ≤ v2 then 1 else 0) :: s2 })
  else if op = 163 then do
    let (v1b, s1) ← spop st.stack
    let v1 ← numFromSlice v1b flags.verify_minimaldata 4
    let (v2b, s2) ← spop s1
    let v2 ← numFromSlice v2b flags.verify_minimaldata 4
    .ok (.state { st with stack := numToBytes (min v1 v2) :: s2 })
  else if op = 164 then do
    let (v1b, s1) ← spop st.stack
    let v1 ← numFromSlice v1b flags.verify_minimaldata 4
    let (v2b, s2) ← spop s1
    let v2 ← numFromSlice v2b flags.verify_minimaldata 4
    .ok (.state { st with stack := numToBytes (max v1 v2) :: s2 })
  else if op = 165 then do
    -- OP_WITHIN
    let (v1b, s1) ← spop st.stack
    let v1 ← numFromSlice v1b flags.verify_minimaldata 4
    let (v2b, s2) ← spop s1
    let v2 ← numFromSlice v2b flags.verify_minimaldata 4
    let (v3b, s3) ← spop s2
    let v3 ← numFromSlice v3b flags.verify_minimaldata 4
    .ok (.state { st with stack := (if v2 ≤ v3 ∧ v3 ≤ v1 then [1] else [0]) :: s3 })
  else if op = 166 then do
    let (v, rest) ← spop st.stack
    .ok (.state { st with stack := ext.ripemd160 v :: rest })
  else if op = 167 then do
    let (v, rest) ← spop st.stack
    .ok (.state { st with stack := ext.sha1 v :: rest })
  else if op = 168 then do
    let (v, rest) ← spop st.stack
    .ok (.state { st with stack := ext.sha256 v :: rest })
  else if op = 169 then do
    let (v, rest) ← spop st.stack
    .ok (.state { st with stack := ext.dhash160 v :: rest })
  else if op = 170 then do
    let (v, rest) ← spop st.stack
    .ok (.state { st with stack := ext.dhash256 v :: rest })
  else if op = 171 then
    -- OP_CODESEPARATOR: begincode := pc (the separator's own offset)
    .ok (.state { st with begincode := pc })
  else if op = 172 ∨ op = 173 then do
    -- OP_CHECKSIG / OP_CHECKSIGVERIFY.  Note: for `Base` the source computes
    -- `script.find_and_delete(&signature)` over the FULL script, discarding the
    -- `subscript(begincode)` it just computed.
    let (pubkey, s1) ← spop st.stack
    let (signature, s2) ← spop s1
    let subscript :=
      if version = SignatureVersion.Base then findAndDelete script signature
      else script.drop st.begincode
    checkSignatureEncoding ext signature flags
    checkPubkeyEncoding pubkey flags
    let success := checkSignatureHelper ext signature pubkey subscript version
    if op = 172 then
      .ok (.state { st with stack := (if success then [1] else [0]) :: s2 })
    else if success = false then .error .CheckSigVerify
    else .ok (.state { st with stack := s2 })
  else if op = 174 ∨ op = 175 then do
    -- OP_CHECKMULTISIG / OP_CHECKMULTISIGVERIFY
    let (kcB, s1) ← spop st.stack
    let kcN ← numFromSlice kcB flags.verify_minimaldata 4
    if kcN < 0 ∨ kcN > (MAX_PUBKEYS_PER_MULTISIG : Int) then .error .PubkeyCount
    else do
      let keysCount := kcN.toNat
      let (keys, s2) ← popN keysCount s1
      let (scB, s3) ← spop s2
      let scN ← numFromSlice scB flags.verify_minimaldata 4
      if scN < 0 ∨ scN > (keysCount : Int) then .error .SigCount
      else do
        let sigsCount := scN.toNat
        let (sigs, s4) ← popN sigsCount s3
        let subscript0 := script.drop st.begincode
        let subscript :=
          if version = SignatureVersion.Base then
            sigs.foldl (fun sc sg => findAndDelete sc sg) subscript0
          else subscript0
        let success ← multisigLoop ext flags keys sigs subscript version
          (keys.length + 1) 0 0 true
        let (dummy, s5) ← spop s4
        if dummy ≠ [] ∧ flags.verify_nulldummy = true then .error .SignatureNullDummy
        else if op = 174 then
          .ok (.state { st with stack := (if success then [1] else [0]) :: s5 })
        else if success = false then .error .CheckSigVerify
        else .ok (.state { st with stack := s5 })
  else if op = 80 ∨ op = 98 ∨ op = 137 ∨ op = 138 then
    -- OP_RESERVED, OP_VER, OP_RESERVED1, OP_RESERVED2
    if executing then .error (.DisabledOpcode op)
    else .ok (.state st)
  else if op = 101 ∨ op = 102 then
    -- OP_VERIF, OP_VERNOTIF
    .error (.DisabledOpcode op)
  else
    -- unreachable: every byte the instruction reader accepts is covered above
    .error .BadOpcode

/-- One full iteration of the `eval_script` loop at `pc`: decode the instruction, run
the pre-dispatch checks, skip when not executing (only the conditional family
`OP_IF..OP_ENDIF` is dispatched in a skipped branch), otherwise dispatch and enforce
the combined stack-size bound. -/
def evalStep (ext : Externals) (flags : VerificationFlags) (script : List Nat)
    (version : SignatureVersion) (pc : Nat) (st : EvalState) : Except Error StepRes :=
  match getInstruction script pc with
  | .error e => .error e
  | .ok instr =>
    match preChecks flags instr (st.execStack.all (fun x => x)) st with
    | .error e => .error e
    | .ok st1 =>
      if ¬(st.execStack.all (fun x => x) = true ∨
          (99 ≤ instr.opcode ∧ instr.opcode ≤ 104)) then
        .ok (.cont (pc + instr.step) st1)
      else
        match dispatch ext flags script version pc instr
            (st.execStack.all (fun x => x)) st1 with
        | .error e => .error e
        | .ok (.halt st2) => .ok (.done st2)
        | .ok (.state st2) =>
          if st2.stack.length + st2.altstack.length > 1000 then .error .StackSize
          else .ok (.cont (pc + instr.step) st2)

/-- The post-loop processing of `eval_script`: a non-empty conditional stack is
`UnbalancedConditional`; success is a non-empty stack whose top casts to true.  The
final stack is returned alongside the success flag (the source mutates the caller's
stack in place). -/
def evalFinish (st : EvalState) : Except Error (Bool × List (List Nat)) :=
  if st.execStack ≠ [] then .error .UnbalancedConditional
  else
    match st.stack with
    | [] => .ok (false, [])
    | top :: _ => .ok (castToBool top, st.stack)

/-- The `while pc < script.len()` loop, fuel-indexed so that it computes by kernel
reduction.  `evalScript` supplies fuel `script.length + 1`, which exceeds the
iteration count since every step advances `pc` by the instruction's step (at least
one byte) and the loop exits once `pc ≥ script.length`. -/
def evalLoop (ext : Externals) (flags : VerificationFlags) (script : List Nat)
    (version : SignatureVersion) :
    Nat → Nat → EvalState → Except Error (Bool × List (List Nat))
  | 0, _, st => evalFinish st
  | fuel + 1, pc, st =>
    if pc < script.length then
      match evalStep ext flags script version pc st with
      | .error e => .error e
      | .ok (.done st2) => evalFinish st2
      | .ok (.cont pc' st') => evalLoop ext flags script version fuel pc' st'
    else evalFinish st

/-- `eval_script` of `interpreter.rs`: reject oversized scripts, then run the loop
from `pc = 0` on the given entry stack with empty alt- and conditional stacks. -/
def evalScript (ext : Externals) (flags : VerificationFlags)
    (version : SignatureVersion) (script : List Nat) (stack : List (List Nat)) :
    Except Error (Bool × List (List Nat)) :=
  if script.length > MAX_SCRIPT_SIZE then .error .ScriptSize
  else evalLoop ext flags script version (script.length + 1) 0 ⟨stack, [], [], 0, 0⟩

/-! ## Concrete collaborator instances and flag sets used by the theorems -/

/-- A trivial collaborator record (like the repository's `NoopSignatureChecker`):
every check fails, the public-key parser rejects everything, hashes are constant. -/
def noopExt : Externals :=
  ⟨fun _ _ _ _ _ => false, fun _ => false, fun _ => false, fun _ => none,
   fun _ => false, fun _ => [], fun _ => [], fun _ => [], fun _ => [], fun _ => []⟩

/-- Flag set with only `verify_minimaldata` enabled. -/
def mdFlags : VerificationFlags := { defaultFlags with verify_minimaldata := true }

/-- A collaborator record whose `SignatureChecker` accepts exactly when the script
code it receives is `[171, 172]` — the subscript from `begincode = 1` (with nothing
for `find_and_delete` to remove) in the three-byte script
`[OP_NOP1, OP_CODESEPARATOR, OP_CHECKSIG]`.  The public-key parser accepts
everything. -/
def subscriptCheckerExt : Externals :=
  ⟨fun _ _ code _ _ => decide (code = [171, 172]), fun _ => false, fun _ => false,
   fun v => some v, fun _ => false, fun _ => [], fun _ => [], fun _ => [], fun _ => [],
   fun _ => []⟩

/-- A collaborator record whose `SignatureChecker` accepts exactly when the script
code it receives is the full script `[176, 171, 172]`. -/
def fullScriptCheckerExt : Externals :=
  ⟨fun _ _ code _ _ => decide (code = [176, 171, 172]), fun _ => false, fun _ => false,
   fun v => some v, fun _ => false, fun _ => [], fun _ => [], fun _ => [], fun _ => [],
   fun _ => []⟩

/-- Modelled from the spec: strict-DER well-formedness as the spec describes
`is_valid_signature_encoding` — size in `[9, 73]`, outer tag `0x30`, declared length
equal to total minus 3, two `0x02`-tagged integer components of nonzero length whose
lengths add up, no high bit in a first content byte, and no leading zero byte unless
it is needed to keep the following high-bit byte positive. -/
def wellFormedDER (sig : List Nat) : Bool :=
  let lenR := sig.getD 3 0
  let lenS := sig.getD (lenR + 5) 0
  decide (9 ≤ sig.length) && decide (sig.length ≤ 73) &&
  decide (sig.getD 0 0 = 0x30) &&
  decide (sig.getD 1 0 = sig.length - 3) &&
  decide (sig.getD 2 0 = 2) && decide (1 ≤ lenR) &&
  decide (lenR + 5 < sig.length) &&
  decide (lenR + lenS + 7 = sig.length) &&
  decide (sig.getD (lenR + 4) 0 = 2) && decide (1 ≤ lenS) &&
  decide (sig.getD 4 0 &&& 0x80 = 0) &&
  decide (sig.getD (lenR + 6) 0 &&& 0x80 = 0) &&
  !(decide (1 < lenR ∧ sig.getD 4 0 = 0 ∧ sig.getD 5 0 &&& 0x80 = 0)) &&
  !(decide (1 < lenS ∧ sig.getD (lenR + 6) 0 = 0 ∧
      sig.getD (lenR + 7) 0 &&& 0x80 = 0))

/-! ## Reachability of instruction boundaries -/

/-- `Reaches pc st pc' st'`: the interpreter loop, started at the instruction
boundary `(pc, st)`, reaches the instruction boundary `(pc', st')` after zero or more
successful steps. -/
inductive Reaches (ext : Externals) (flags : VerificationFlags) (script : List Nat)
    (version : SignatureVersion) : Nat → EvalState → Nat → EvalState → Prop where
  | refl (pc : Nat) (st : EvalState) : Reaches ext flags script version pc st pc st
  | step {pc st pcMid stMid pc' st'} :
      evalStep ext flags script version pc st = .ok (.cont pcMid stMid) →
      Reaches ext flags script version pcMid stMid pc' st' →
      Reaches ext flags script version pc st pc' st'

/-! ## Helper lemmas -/

/-- `preChecksCount` only ever touches the opcode counter. -/
theorem preChecksCount_ok_stacks {instr : Instruction} {st st' : EvalState}
    (h : preChecksCount instr st = .ok st') :
    st'.stack = st.stack ∧ st'.altstack = st.altstack := by
  unfold preChecksCount at h
  split at h
  · split at h
    · cases h
    · split at h
      · cases h
      · cases h
        exact ⟨rfl, rfl⟩
  · split at h
    · cases h
    · cases h
      exact ⟨rfl, rfl⟩

/-- `preChecks` only ever touches the opcode counter. -/
theorem preChecks_ok_stacks {flags : VerificationFlags} {instr : Instruction}
    {executing : Bool} {st st' : EvalState}
    (h : preChecks flags instr executing st = .ok st') :
    st'.stack = st.stack ∧ st'.altstack = st.altstack := by
  unfold preChecks at h
  split at h
  · split at h
    · cases h
    · split at h
      · cases h
      · exact preChecksCount_ok_stacks h
  · exact preChecksCount_ok_stacks h

/-- A successful `.cont` step preserves the 1000-element bound on the combined stack
size: a skipped instruction leaves both stacks untouched, and a dispatched one passes
the explicit post-dispatch check. -/
theorem evalStep_cont_bound {ext : Externals} {flags : VerificationFlags}
    {script : List Nat} {version : SignatureVersion} {pc : Nat} {st : EvalState}
    {pc' : Nat} {st' : EvalState}
    (h : evalStep ext flags script version pc st = .ok (.cont pc' st'))
    (hb : st.stack.length + st.altstack.length ≤ 1000) :
    st'.stack.length + st'.altstack.length ≤ 1000 := by
  unfold evalStep at h
  split at h
  · cases h
  · split at h
    · cases h
    · rename_i st1 hPre
      split at h
      · cases h
        obtain ⟨h1, h2⟩ := preChecks_ok_stacks hPre
        rw [h1, h2]
        exact hb
      · split at h
        · cases h
        · cases h
        · split at h
          · cases h
          · cases h
            omega

/-- `popN` over an explicit list prefix pops exactly that prefix. -/
theorem popN_append (l r : List α) : popN l.length (l ++ r) = .ok (l, r) := by
  induction l with
  | nil => rfl
  | cons a t ih =>
    simp only [List.length_cons, List.cons_append, popN, spop, bind, Except.bind, ih]

/-! ## Claim theorems -/

/-- C1.  The claim says that for `OP_CHECKSIG` with `SignatureVersion::Base` the
script code handed to `SignatureChecker.check_signature` is the subscript
`script[begincode..]` with the exact pushes of the popped signature removed by
`find_and_delete`.  The code instead computes `script.find_and_delete(signature)`
over the FULL script, discarding `begincode`.  Witnessed on the script
`[OP_NOP1, OP_CODESEPARATOR, OP_CHECKSIG]` (bytes `[176, 171, 172]`) with entry
stack pubkey `[2]`, signature `[9, 1]`: the claim's script code is `[171, 172]`
(first conjunct), yet a checker accepting exactly that script code sees the check
fail (second conjunct, result `[0]` pushed), while a checker accepting exactly the
full script `[176, 171, 172]` sees it succeed (third conjunct, result `[1]`
pushed). -/
theorem checksig_script_code_ignores_codeseparator :
    findAndDelete (([176, 171, 172] : List Nat).drop 1) [9, 1] = [171, 172] ∧
    evalScript subscriptCheckerExt defaultFlags .Base [176, 171, 172] [[2], [9, 1]] =
      .ok (false, [[0]]) ∧
    evalScript fullScriptCheckerExt defaultFlags .Base [176, 171, 172] [[2], [9, 1]] =
      .ok (true, [[1]]) :=
  ⟨by decide, rfl, rfl⟩

/-- C2.  The claim says `OP_NOP` has no effect and evaluation continues; the source
instead performs `break`, leaving the interpreter loop.  On `[OP_NOP, OP_1]` the
following `OP_1` is never executed: the result is `Ok(false)` with an empty stack
(first conjunct), whereas `[OP_1]` alone yields `Ok(true)` with stack `[[1]]`
(second conjunct). -/
theorem op_nop_halts_evaluation :
    evalScript noopExt defaultFlags .Base [97, 81] [] = .ok (false, []) ∧
    evalScript noopExt defaultFlags .Base [81] [] = .ok (true, [[1]]) :=
  ⟨rfl, rfl⟩

/-- C3.  The claim says `OP_ELSE` replaces the top of the conditional stack by its
negation; the source writes `exec_stack[last] == !last` (a comparison, not an
assignment), so the top is left unchanged.  The dispatch of `OP_ELSE` (opcode 103)
on conditional stack `[false]` leaves it `[false]` (first conjunct); consequently
`[OP_0, OP_IF, OP_ELSE, OP_1, OP_ENDIF]` skips the `OP_1` in the else-branch and
yields `Ok(false)` with an empty stack (second conjunct) instead of the claim's
`Ok(true)` with stack `[[1]]`. -/
theorem op_else_does_not_toggle :
    dispatch noopExt defaultFlags [] .Base 0 ⟨103, none, 1⟩ false ⟨[], [], [false], 0, 0⟩ =
      .ok (.state ⟨[], [], [false], 0, 0⟩) ∧
    evalScript noopExt defaultFlags .Base [0, 99, 103, 81, 104] [] = .ok (false, []) :=
  ⟨rfl, rfl⟩

/-- C4.  The claim says that with `verify_clocktimeverify` off (and
`verify_discourage_upgradable_nops` off) `OP_CHECKLOCKTIMEVERIFY` has no effect — in
particular it does not read the stack and does not call `checker.check_lock_time`.
The source has no early exit for that case and falls through to the locktime body:
on an empty stack it fails with `InvalidStackOperation` (first conjunct), and on
stack `[[1]]` it consults `check_lock_time` (here constantly false) and fails with
`UnsatisfiedLocktime` (second conjunct); the claim requires `Ok` in both runs. -/
theorem cltv_flag_off_reads_stack :
    evalScript noopExt defaultFlags .Base [177] [] = .error .InvalidStackOperation ∧
    evalScript noopExt defaultFlags .Base [177] [[1]] = .error .UnsatisfiedLocktime :=
  ⟨rfl, rfl⟩

/-- C5.  The claim says `is_valid_signature_encoding` accepts every well-formed
strict-DER signature, including one whose R component needs a leading zero byte
because the next byte has its high bit set.  The source renders C's logical `!` as
Rust's bitwise `!` on `u8`, so `(!(sig[5] & 0x80)) != 0` is always true and every
signature with `len_r > 1 && sig[4] == 0` is rejected.  The 10-byte signature
`30 07 02 02 00 80 02 01 01 01` (R = 0x0080, which requires its leading zero) is
well-formed DER (first conjunct) yet rejected (second conjunct), contradicting the
function's own doc comment ("a single 0 byte is necessary and even required"). -/
theorem der_required_leading_zero_rejected :
    wellFormedDER [0x30, 0x07, 0x02, 0x02, 0x00, 0x80, 0x02, 0x01, 0x01, 0x01] = true ∧
    isValidSignatureEncoding [0x30, 0x07, 0x02, 0x02, 0x00, 0x80, 0x02, 0x01, 0x01, 0x01] =
      false := by
  refine ⟨by decide, by decide⟩

/-- C6.  For `OP_LESSTHAN` (opcode 159) the interpreter pops `b` (top) then `a`
(second), both decoded as 4-byte `Num`s, and pushes the numeric encoding of `a < b`;
for `OP_GREATERTHAN` (opcode 160) it pushes the encoding of `a > b`.  (The source
pops `v1` then `v2` and pushes `v1 > v2` resp. `v1 < v2`, which with `v1 = b`,
`v2 = a` is exactly `a < b` resp. `a > b` — the spec's "open question 3" does not
show up in the code.) -/
theorem lessthan_greaterthan_operand_order (ext : Externals)
    (flags : VerificationFlags) (script : List Nat) (version : SignatureVersion)
    (pc : Nat) (executing : Bool) (bB aB : List Nat) (rest alt : List (List Nat))
    (ex : List Bool) (oc bc : Nat) (a b : Int)
    (hb : numFromSlice bB flags.verify_minimaldata 4 = .ok b)
    (ha : numFromSlice aB flags.verify_minimaldata 4 = .ok a) :
    dispatch ext flags script version pc ⟨159, none, 1⟩ executing
      ⟨bB :: aB :: rest, alt, ex, oc, bc⟩ =
      .ok (.state ⟨numToBytes (if a < b then 1 else 0) :: rest, alt, ex, oc, bc⟩) ∧
    dispatch ext flags script version pc ⟨160, none, 1⟩ executing
      ⟨bB :: aB :: rest, alt, ex, oc, bc⟩ =
      .ok (.state ⟨numToBytes (if a > b then 1 else 0) :: rest, alt, ex, oc, bc⟩) := by
  constructor <;>
    simp only [dispatch, spop, bind, Except.bind, hb, ha, gt_iff_lt] <;>
    norm_num

/-- Witness for C6 at concrete operands: with `a = 1` pushed below `b = 2`,
`OP_LESSTHAN` pushes the encoding of `1 < 2`, namely `[1]`. -/
theorem lessthan_greaterthan_operand_order_witness :
    dispatch noopExt defaultFlags [] .Base 0 ⟨159, none, 1⟩ true
      ⟨[[2], [1]], [], [], 0, 0⟩ = .ok (.state ⟨[[1]], [], [], 0, 0⟩) := by
  have h := (lessthan_greaterthan_operand_order noopExt defaultFlags [] .Base 0 true
    [2] [1] [] [] [] 0 0 1 2 rfl rfl).1
  simpa using h

/-- C7 counterexample.  The claim says that with `verify_minimaldata` set, a script
containing ANY push that could be encoded more compactly yields `Minimaldata`.  The
script `[OP_0, OP_IF, OP_PUSHDATA1 0x01 0x05, OP_ENDIF]` contains the non-minimal
push `OP_PUSHDATA1` of the single byte 5 (first two conjuncts), yet it evaluates to
`Ok(false)` because the push sits in a non-executing branch and the source only
enforces `check_minimal_push` when `executing` (third conjunct). -/
theorem minimaldata_skipped_branch_counterexample :
    getInstruction [0, 99, 76, 1, 5, 104] 2 = .ok ⟨76, some [5], 3⟩ ∧
    checkMinimalPush [5] 76 = false ∧
    evalScript noopExt mdFlags .Base [0, 99, 76, 1, 5, 104] [] = .ok (false, []) :=
  ⟨rfl, by decide, rfl⟩

/-- C7, amended.  With `verify_minimaldata` set, a push instruction whose payload is
within the 520-byte element limit and could be encoded more compactly causes
`Minimaldata` as soon as the interpreter processes it at an EXECUTING instruction
boundary (pushes inside non-executing conditional branches are not checked, and a
payload above 520 bytes fails earlier with `PushSize`, since the size check at line
316 precedes the minimal-push check at line 320). -/
theorem minimaldata_executing_push_errors (ext : Externals)
    (flags : VerificationFlags) (script : List Nat) (version : SignatureVersion)
    (pc : Nat) (st : EvalState) (instr : Instruction) (d : List Nat)
    (hI : getInstruction script pc = .ok instr)
    (hd : instr.data = some d)
    (hlen : d.length ≤ MAX_SCRIPT_ELEMENT_SIZE)
    (hmin : checkMinimalPush d instr.opcode = false)
    (hexec : st.execStack.all (fun x => x) = true)
    (hflag : flags.verify_minimaldata = true) :
    evalStep ext flags script version pc st = .error .Minimaldata := by
  have hlen' : ¬ d.length > MAX_SCRIPT_ELEMENT_SIZE := by omega
  simp only [evalStep, hI, preChecks, hd, hexec, hflag, hmin, hlen', if_false,
    and_self, if_true, ite_false, ite_true, and_true, true_and]

/-- Witness for the amended C7: the single-instruction script
`[OP_PUSHDATA1, 0x01, 0x05]` under `verify_minimaldata` fails with `Minimaldata` at
its (executing) first boundary. -/
theorem minimaldata_executing_push_errors_witness :
    evalStep noopExt mdFlags [76, 1, 5] .Base 0 ⟨[], [], [], 0, 0⟩ =
      .error .Minimaldata :=
  minimaldata_executing_push_errors noopExt mdFlags [76, 1, 5] .Base 0
    ⟨[], [], [], 0, 0⟩ ⟨76, some [5], 3⟩ [5] rfl rfl (by decide) (by decide) rfl rfl

/-- Membership of the always-disabled set implies an opcode value above `OP_16`
(= 96), hence countability. -/
theorem isDisabled_gt_96 (op : Nat) (h : isDisabled op = true) : 96 < op := by
  simp only [isDisabled, Bool.or_eq_true, decide_eq_true_eq] at h
  rcases h with ((((((((((((((((h | h) | h) | h) | h) | h) | h) | h) | h) | h) | h) |
    h) | h) | h) | h) | h) | h) <;> omega

/-- The instruction reader only attaches data to push opcodes (byte values up
to 78). -/
theorem getInstruction_data_none (script : List Nat) (pc : Nat) (instr : Instruction)
    (h : getInstruction script pc = .ok instr) (hop : 78 < instr.opcode) :
    instr.data = none := by
  unfold getInstruction at h
  split at h
  · cases h
  · rename_i op hop2
    split at h
    · split at h
      · cases h
        simp_all
        omega
      · cases h
    · split at h
      · split at h
        · cases h
        · split at h
          · cases h
            simp_all
          · cases h
      · split at h
        · split at h
          · split at h
            · cases h
              simp_all
            · cases h
          · cases h
        · split at h
          · split at h
            · split at h
              · cases h
                simp_all
              · cases h
            · cases h
          · split at h
            · cases h
              rfl
            · cases h

/-- C8 counterexample.  The claim says evaluating ANY script containing an
always-disabled opcode yields `DisabledOpcode`.  The script `[OP_RETURN, OP_CAT]`
contains the disabled `OP_CAT` (126, first two conjuncts), yet evaluation aborts at
the preceding `OP_RETURN` with `ReturnOpcode` before the disabled opcode is ever
reached (third conjunct). -/
theorem disabled_opcode_any_script_counterexample :
    isDisabled 126 = true ∧ (126 ∈ ([106, 126] : List Nat)) ∧
    evalScript noopExt defaultFlags .Base [106, 126] [] = .error .ReturnOpcode :=
  ⟨by decide, by decide, rfl⟩

/-- C8, amended.  An instruction whose opcode is in the always-disabled set makes
`evalStep` return `DisabledOpcode` as soon as the interpreter reaches it, for every
conditional-stack content (executing or skipped) — the trap fires before the
conditional-skip test — provided the opcode counter has not already overflowed
(instructions evaluated earlier may abort evaluation with their own errors
first). -/
theorem disabled_opcode_reached_errors (ext : Externals)
    (flags : VerificationFlags) (script : List Nat) (version : SignatureVersion)
    (pc : Nat) (st : EvalState) (instr : Instruction)
    (hI : getInstruction script pc = .ok instr)
    (hD : isDisabled instr.opcode = true)
    (hC : st.opCount + 1 ≤ MAX_OPS_PER_SCRIPT) :
    evalStep ext flags script version pc st = .error (.DisabledOpcode instr.opcode) := by
  have hop96 := isDisabled_gt_96 _ hD
  have hdata : instr.data = none :=
    getInstruction_data_none script pc instr hI (by omega)
  have hcnt : isCountable instr.opcode = true := by
    simp only [isCountable, decide_eq_true_eq]
    omega
  have hC' : ¬ st.opCount + 1 > MAX_OPS_PER_SCRIPT := by omega
  simp only [evalStep, hI, preChecks, hdata, preChecksCount, hcnt, hC', hD, if_false,
    if_true, ite_false, ite_true]

/-- Witness for the amended C8: in `[OP_0, OP_IF, OP_CAT, OP_ENDIF]` the boundary at
`pc = 2` sits in a NON-executing branch (conditional stack `[false]`), and the
disabled `OP_CAT` still traps with `DisabledOpcode`. -/
theorem disabled_opcode_reached_errors_witness :
    evalStep noopExt defaultFlags [0, 99, 126, 104] .Base 2 ⟨[], [], [false], 1, 0⟩ =
      .error (.DisabledOpcode 126) :=
  disabled_opcode_reached_errors noopExt defaultFlags [0, 99, 126, 104] .Base 2
    ⟨[], [], [false], 1, 0⟩ ⟨126, none, 1⟩ rfl (by decide) (by decide)

/-- C9.  First conjunct: starting from any instruction boundary whose combined
stack size (`stack.len + altstack.len`) is at most 1000 — as is the case for every
`eval_script` run the verifier performs, which starts from an empty pair of stacks or
from the result of a previous run — every boundary the loop reaches also satisfies
the 1000-element bound.  Second conjunct: an instruction whose dispatch produces a
state exceeding the bound makes that very step return `StackSize` immediately. -/
theorem stack_size_limit_invariant :
    (∀ (ext : Externals) (flags : VerificationFlags) (script : List Nat)
        (version : SignatureVersion) (pc : Nat) (st : EvalState) (pc' : Nat)
        (st' : EvalState),
      Reaches ext flags script version pc st pc' st' →
      st.stack.length + st.altstack.length ≤ 1000 →
      st'.stack.length + st'.altstack.length ≤ 1000) ∧
    (∀ (ext : Externals) (flags : VerificationFlags) (script : List Nat)
        (version : SignatureVersion) (pc : Nat) (st : EvalState) (instr : Instruction)
        (st1 st2 : EvalState),
      getInstruction script pc = .ok instr →
      preChecks flags instr (st.execStack.all (fun x => x)) st = .ok st1 →
      (st.execStack.all (fun x => x) = true ∨
        (99 ≤ instr.opcode ∧ instr.opcode ≤ 104)) →
      dispatch ext flags script version pc instr (st.execStack.all (fun x => x)) st1 =
        .ok (.state st2) →
      st2.stack.length + st2.altstack.length > 1000 →
      evalStep ext flags script version pc st = .error .StackSize) := by
  constructor
  · intro ext flags script version pc st pc' st' hr hb
    induction hr with
    | refl _ _ => exact hb
    | step hstep _ ih => exact ih (evalStep_cont_bound hstep hb)
  · intro ext flags script version pc st instr st1 st2 hI hP hcond hD hsz
    simp only [evalStep, hI, hP]
    rw [if_neg (not_not_intro hcond)]
    simp only [hD]
    rw [if_pos hsz]

/-- Witness for C9, applying the invariant along the empty run from the initial
boundary of a fresh evaluation. -/
theorem stack_size_limit_invariant_witness :
    (⟨[], [], [], 0, 0⟩ : EvalState).stack.length +
      (⟨[], [], [], 0, 0⟩ : EvalState).altstack.length ≤ 1000 :=
  stack_size_limit_invariant.1 noopExt defaultFlags [] .Base 0 ⟨[], [], [], 0, 0⟩ 0
    ⟨[], [], [], 0, 0⟩ (Reaches.refl 0 ⟨[], [], [], 0, 0⟩) (by decide)

/-- C10.  An executing `OP_CHECKMULTISIG` (opcode 174) that pops a keys count `kc`
in `[0, 20]`, then `kc` key elements, then a sigs count of zero, pops no signatures,
runs zero iterations of the checking loop (so no encoding checks and no
`check_signature` calls — the conclusion holds for EVERY collaborator record `ext`
and every flag set), pops one further dummy element, and — the dummy being empty or
`verify_nulldummy` off — pushes the single-byte element `[1]`.  The alt-stack,
conditional stack, opcode counter and `begincode` are untouched. -/
theorem checkmultisig_zero_sigs (ext : Externals) (flags : VerificationFlags)
    (script : List Nat) (version : SignatureVersion) (pc : Nat) (executing : Bool)
    (kcB scB dummy : List Nat) (keys rest alt : List (List Nat)) (ex : List Bool)
    (oc bc : Nat) (kc : Int)
    (hkc : numFromSlice kcB flags.verify_minimaldata 4 = .ok kc)
    (h0 : 0 ≤ kc) (h20 : kc ≤ 20)
    (hlen : keys.length = kc.toNat)
    (hsc : numFromSlice scB flags.verify_minimaldata 4 = .ok 0)
    (hdummy : dummy = [] ∨ flags.verify_nulldummy = false) :
    dispatch ext flags script version pc ⟨174, none, 1⟩ executing
      ⟨kcB :: (keys ++ scB :: dummy :: rest), alt, ex, oc, bc⟩ =
      .ok (.state ⟨[1] :: rest, alt, ex, oc, bc⟩) := by
  have hguard : ¬(kc < 0 ∨ kc > (MAX_PUBKEYS_PER_MULTISIG : Int)) := by
    simp only [MAX_PUBKEYS_PER_MULTISIG]
    omega
  have hpop : popN kc.toNat (keys ++ scB :: dummy :: rest) =
      .ok (keys, scB :: dummy :: rest) := by
    rw [← hlen]
    exact popN_append _ _
  have hguard2 : ¬((0 : Int) < 0 ∨ (0 : Int) > (kc.toNat : Int)) := by omega
  have hnd : ¬(dummy ≠ [] ∧ flags.verify_nulldummy = true) := by
    rcases hdummy with h | h
    · simp [h]
    · simp [h]
  simp only [dispatch, spop, bind, Except.bind, hkc, hguard, hpop, hsc, hguard2,
    hnd, Int.toNat_zero, popN, multisigLoop, List.length_nil, ite_true, ite_false,
    if_true, if_false, Nat.lt_irrefl, false_and, and_true, not_lt]
  norm_num

/-- Witness for C10 at a concrete instance: keys count 1 (one key `[2]`), sigs count
0 (encoded as the empty string), empty dummy; the multisig arm pushes `[1]`. -/
theorem checkmultisig_zero_sigs_witness :
    dispatch noopExt defaultFlags [] .Base 0 ⟨174, none, 1⟩ true
      ⟨[[1], [2], [], []], [], [], 0, 0⟩ = .ok (.state ⟨[[1]], [], [], 0, 0⟩) := by
  have h := checkmultisig_zero_sigs noopExt defaultFlags [] .Base 0 true
    [1] [] [] [[2]] [] [] [] 0 0 1 rfl (by decide) (by decide) rfl rfl (Or.inl rfl)
  simpa using h

end BitcoinScript
